import Mathlib

/-!
Verification development for the SEO-Pulse monitoring tool (src/main.py).

The numeric values carried by the PageSpeed JSON payload are modelled as
exact rationals (`ℚ`); Python dictionaries whose keys are data (the audit
mapping, the translation table) are modelled as association lists in
insertion order, and dictionaries with a fixed set of accessed keys as
structures with `Option` fields (`none` = key absent, which the Python
code reads through `.get` with a default).  Python string operations are
reproduced over `String.data` (Python `len`/slicing count code points,
as `List Char` does).
-/

/-- Python `int(q)`: truncation toward zero. -/
def pyInt (q : ℚ) : ℤ :=
  if q < 0 then ⌈q⌉ else ⌊q⌋

/-- Round half to even on an exact rational, as Python `round` does on the
mathematical value. -/
def pyRoundHalfEven (q : ℚ) : ℤ :=
  if q - ⌊q⌋ = 1 / 2 then (if ⌊q⌋ % 2 = 0 then ⌊q⌋ else ⌊q⌋ + 1) else ⌊q + 1 / 2⌋

/-- Python `round(q, n)` on the exact mathematical value of `q`. -/
def pyRound (q : ℚ) (n : ℕ) : ℚ :=
  (pyRoundHalfEven (q * 10 ^ n) : ℚ) / 10 ^ n

/-- Python `s[:n]` (slicing counts code points). -/
def pyTake (s : String) (n : ℕ) : String :=
  ⟨s.data.take n⟩

/-- Python `s.ljust(w)`: pad with spaces on the right up to `w` characters;
a string already at least `w` long is returned unchanged (never truncated). -/
def pyLjust (s : String) (w : ℕ) : String :=
  if w ≤ s.length then s else ⟨s.data ++ List.replicate (w - s.length) ' '⟩

/-- Python `s.center(w)` (CPython puts the extra fill character of an odd
margin on the left exactly when the width is odd). -/
def pyCenter (s : String) (w : ℕ) : String :=
  if w ≤ s.length then s
  else
    let marg := w - s.length
    let left := marg / 2 + marg % 2 * (w % 2)
    ⟨List.replicate left ' ' ++ s.data ++ List.replicate (marg - left) ' '⟩

/-- Python `s.split()`: split on whitespace runs, no empty pieces. -/
def pySplitWs (s : String) : List String :=
  (s.split fun c => c.isWhitespace).filter fun w => w ≠ ""

/-- Python `d.get(k)` on a dict modelled as an association list in insertion
order (keys of an actual dict are unique). -/
def dictGet {α : Type} (l : List (String × α)) (k : String) : Option α :=
  (l.find? fun p => p.1 == k).map fun p => p.2

/-- The `details` sub-dict of an audit entry; the source reads the keys
`type` (default `""`), `overallSavingsMs` and `overallSavingsBytes`
(presence tested with `in`, values read with default `0`). -/
structure Details where
  type : Option String
  overallSavingsMs : Option ℚ
  overallSavingsBytes : Option ℚ
deriving DecidableEq

/-- An entry of the `audits` mapping; every field the source reads, each
through `.get` with a default. -/
structure AuditData where
  score : Option ℚ
  title : Option String
  description : Option String
  displayValue : Option String
  numericValue : Option ℚ
  details : Option Details
deriving DecidableEq

/-- Python `audit_data.get("details", {})` yields an empty dict. -/
def emptyDetails : Details :=
  ⟨none, none, none⟩

/-- Python `audits.get(key, {})` yields an empty dict. -/
def emptyAudit : AuditData :=
  ⟨none, none, none, none, none, none⟩

/-- One entry of `AUDIT_TRANSLATIONS` (each entry in the source carries both
keys `title` and `action`). -/
structure TranslationEntry where
  title : String
  action : String
deriving DecidableEq

/-- The static `AUDIT_TRANSLATIONS` table of src/main.py, in source order. -/
def AUDIT_TRANSLATIONS : List (String × TranslationEntry) :=
  [("render-blocking-resources",
    ⟨"🚫 Render Engelleyen Kaynakları Azaltın",
     "CSS ve JavaScript dosyalarını async/defer ile yükleyin. Kritik CSS'i inline yapın."⟩),
   ("unused-javascript",
    ⟨"📦 Kullanılmayan JavaScript'i Kaldırın",
     "Kullanılmayan JS kodlarını tespit edip silin. Code splitting uygulayın."⟩),
   ("unused-css-rules",
    ⟨"🎨 Kullanılmayan CSS'i Temizleyin",
     "PurgeCSS veya benzeri araçlarla kullanılmayan stilleri kaldırın."⟩),
   ("unminified-javascript",
    ⟨"📉 JavaScript'i Sıkıştırın",
     "Terser veya UglifyJS ile JS dosyalarını minify edin."⟩),
   ("unminified-css",
    ⟨"📉 CSS'i Sıkıştırın",
     "CSS dosyalarını cssnano veya benzeri araçlarla minify edin."⟩),
   ("modern-image-formats",
    ⟨"🖼️ Modern Görsel Formatlarına Geçin",
     "JPEG/PNG yerine WebP veya AVIF formatlarını kullanın. %25-50 tasarruf sağlar."⟩),
   ("uses-optimized-images",
    ⟨"🖼️ Görselleri Optimize Edin",
     "Görselleri sıkıştırın (TinyPNG, ImageOptim). Boyutları küçültün."⟩),
   ("offscreen-images",
    ⟨"📸 Görünmeyen Görselleri Lazy Load Yapın",
     "loading='lazy' özelliğini ekleyin. Viewport dışındaki görselleri erteleyin."⟩),
   ("uses-responsive-images",
    ⟨"📱 Responsive Görseller Kullanın",
     "srcset ve sizes özelliklerini kullanarak farklı ekranlara uygun görseller sunun."⟩),
   ("efficiently-encode-images",
    ⟨"🔧 Görselleri Verimli Kodlayın",
     "Görselleri JPEG quality 80-85 ile optimize edin."⟩),
   ("uses-text-compression",
    ⟨"📦 Metin Sıkıştırma (Gzip/Brotli) Etkinleştirin",
     "Sunucu ayarlarından Gzip veya Brotli sıkıştırmayı aktif edin."⟩),
   ("uses-rel-preconnect",
    ⟨"🔗 Erken Bağlantı Kurulumunu Etkinleştirin",
     "3. parti kaynaklara <link rel='preconnect'> ekleyin."⟩),
   ("uses-rel-preload",
    ⟨"⚡ Kritik Kaynakları Önceden Yükleyin",
     "Önemli font ve CSS dosyalarına <link rel='preload'> ekleyin."⟩),
   ("server-response-time",
    ⟨"🖥️ Sunucu Yanıt Süresini Azaltın (TTFB)",
     "CDN kullanın, veritabanı sorgularını optimize edin, caching ekleyin."⟩),
   ("redirects",
    ⟨"🔀 Yönlendirmeleri Azaltın",
     "Gereksiz redirect zincirlerini kaldırın. Doğrudan URL'lere yönlendirin."⟩),
   ("uses-http2",
    ⟨"🌐 HTTP/2 Protokolünü Kullanın",
     "Sunucunuzu HTTP/2 destekleyecek şekilde yapılandırın."⟩),
   ("dom-size",
    ⟨"📄 DOM Boyutunu Küçültün",
     "Gereksiz HTML elementlerini kaldırın. Virtual scrolling uygulayın."⟩),
   ("critical-request-chains",
    ⟨"⛓️ Kritik İstek Zincirlerini Kısaltın",
     "Kritik kaynakları inline yapın veya preload ile önceden yükleyin."⟩),
   ("bootup-time",
    ⟨"⏱️ JavaScript Çalışma Süresini Azaltın",
     "Ağır JS işlemlerini Web Worker'lara taşıyın. Code splitting yapın."⟩),
   ("mainthread-work-breakdown",
    ⟨"🧵 Ana İş Parçacığı Yükünü Azaltın",
     "JS çalışmasını optimize edin. Uzun görevleri parçalara ayırın."⟩),
   ("font-display",
    ⟨"🔤 Font Görüntüleme Stratejisini Optimize Edin",
     "font-display: swap kullanarak FOIT sorununu önleyin."⟩),
   ("third-party-summary",
    ⟨"🔌 3. Parti Scriptleri Optimize Edin",
     "Gereksiz 3. parti scriptleri kaldırın veya erteleyin (analytics, chat widget vb.)"⟩),
   ("largest-contentful-paint-element",
    ⟨"🎯 LCP Elementini Optimize Edin",
     "Ana hero görselini preload yapın. CDN kullanın. Boyutunu küçültün."⟩),
   ("lcp-lazy-loaded",
    ⟨"⚠️ LCP Görseli Lazy Load Edilmiş",
     "LCP (hero) görselinden loading='lazy' özelliğini kaldırın!"⟩),
   ("total-blocking-time",
    ⟨"⏳ Toplam Engelleme Süresini Azaltın",
     "Uzun JavaScript görevlerini bölün. Ana thread'i serbest bırakın."⟩),
   ("cumulative-layout-shift",
    ⟨"📐 Görsel Kaymaları (CLS) Engelleyin",
     "Görsel ve iframe'lere width/height ekleyin. Font FOUT'unu önleyin."⟩),
   ("prioritize-lcp-image",
    ⟨"🖼️ LCP Görselini Önceliklendirin",
     "fetchpriority='high' ve preload ile LCP görselini önceliklendirin."⟩),
   ("legacy-javascript",
    ⟨"📜 Eski JavaScript Polyfill'leri Kaldırın",
     "Modern tarayıcılar için gereksiz polyfill'leri kaldırın."⟩),
   ("duplicated-javascript",
    ⟨"📦 Tekrarlanan JS Modüllerini Temizleyin",
     "Webpack/Rollup bundle analizi yapın, duplicate modülleri kaldırın."⟩)]

/-- The intermediate dict appended to `opportunities` in the loop body of
`extract_smart_recommendations`. -/
structure Opportunity where
  audit_id : String
  title : String
  action : String
  display_value : String
  savings : ℚ
  score : ℚ
  savings_ms : ℚ
  savings_bytes : ℚ
deriving DecidableEq

/-- One element of the list `extract_smart_recommendations` returns. -/
structure Recommendation where
  title : String
  action : String
  display_value : String
  savings_ms : ℚ
  savings_bytes : ℚ
deriving DecidableEq

/-- The loop body of `PageSpeedAnalyzer.extract_smart_recommendations`
(src/main.py lines 313-359) on one `audits` entry: `none` when the entry is
skipped (by the score guard or the opportunity/savings guard), otherwise the
opportunity dict that is appended. -/
def mkOpportunity (audit_id : String) (audit_data : AuditData) : Option Opportunity :=
  let details := audit_data.details.getD emptyDetails
  let audit_type := details.type.getD ""
  match audit_data.score with
  | none => none
  | some score =>
    if 9 / 10 ≤ score then none
    else
      let is_opportunity := audit_type == "opportunity"
      let has_savings := details.overallSavingsMs.isSome || details.overallSavingsBytes.isSome
      if is_opportunity || has_savings then
        let savings_ms := details.overallSavingsMs.getD 0
        let savings_bytes := details.overallSavingsBytes.getD 0
        let total_savings := savings_ms + savings_bytes / 1000
        let translation := dictGet AUDIT_TRANSLATIONS audit_id
        let tr_title := (translation.map fun t => t.title).getD (audit_data.title.getD "Bilinmeyen Tavsiye")
        let tr_action := (translation.map fun t => t.action).getD (pyTake (audit_data.description.getD "") 150)
        let display_value := audit_data.displayValue.getD ""
        let savings_text :=
          if 0 < savings_ms then " (~" ++ toString (pyInt savings_ms) ++ "ms tasarruf)"
          else if 0 < savings_bytes then " (~" ++ toString (pyInt (savings_bytes / 1024)) ++ "KB tasarruf)"
          else ""
        some { audit_id := audit_id, title := tr_title, action := tr_action ++ savings_text,
               display_value := display_value, savings := total_savings, score := score,
               savings_ms := savings_ms, savings_bytes := savings_bytes }
      else none

/-- The `opportunities` list accumulated by the loop, in iteration
(= insertion) order. -/
def opportunitiesOf (audits : List (String × AuditData)) : List Opportunity :=
  audits.filterMap fun p => mkOpportunity p.1 p.2

/-- The final list-comprehension projection of the function. -/
def toRecommendation (opp : Opportunity) : Recommendation :=
  { title := opp.title, action := opp.action, display_value := opp.display_value,
    savings_ms := opp.savings_ms, savings_bytes := opp.savings_bytes }

/-- `PageSpeedAnalyzer.extract_smart_recommendations` (src/main.py lines
298-374): filter the audit entries, stable-sort descending by the `savings`
key (`list.sort(key=..., reverse=True)` is a stable sort), project. -/
def extract_smart_recommendations (audits : List (String × AuditData)) : List Recommendation :=
  let opportunities := opportunitiesOf audits
  let sorted := opportunities.mergeSort fun a b => decide (b.savings ≤ a.savings)
  sorted.map toRecommendation

/-- The `categories.performance` sub-dict; the source reads only `score`. -/
structure PerfCategory where
  score : Option ℚ
deriving DecidableEq

/-- The `lighthouseResult.categories` dict; the source reads only the key
`performance`. -/
structure Categories where
  performance : Option PerfCategory
deriving DecidableEq

/-- The `lighthouseResult` dict; the source reads `categories` and `audits`. -/
structure LighthouseResult where
  categories : Option Categories
  audits : Option (List (String × AuditData))
deriving DecidableEq

/-- The parsed JSON body of a 2xx PageSpeed response; the source reads only
`lighthouseResult`. -/
structure PSResponse where
  lighthouseResult : Option LighthouseResult
deriving DecidableEq

/-- Python `lighthouse.get(key, {})` default. -/
def emptyCategories : Categories :=
  ⟨none⟩

/-- Python `categories.get("performance", {})` default. -/
def emptyPerfCategory : PerfCategory :=
  ⟨none⟩

/-- Python `data.get("lighthouseResult", {})` default. -/
def emptyLighthouse : LighthouseResult :=
  ⟨none, none⟩

/-- How the external call inside `PageSpeedAnalyzer.analyze` ends; one
constructor per `except` clause of src/main.py lines 439-472, plus the
successful case carrying the parsed 2xx body. -/
inductive ApiOutcome where
  | timeout
  | httpError (status : ℕ)
  | requestException
  | keyError
  | otherException
  | success (data : PSResponse)
deriving DecidableEq

/-- The metrics dict `analyze` returns on success. -/
structure Metrics where
  score : ℤ
  lcp : ℚ
  cls : ℚ
  recommendations : List Recommendation
deriving DecidableEq

/-- `PageSpeedAnalyzer.analyze` (src/main.py lines 376-472) as a function of
how the external call ends: every `except` clause logs and returns `None`;
the success path normalizes the body with defaulting `.get` accesses only. -/
def analyze (outcome : ApiOutcome) : Option Metrics :=
  match outcome with
  | .success data =>
    let lighthouse := data.lighthouseResult.getD emptyLighthouse
    let categories := lighthouse.categories.getD emptyCategories
    let audits := lighthouse.audits.getD []
    let perf_category := (categories.performance).getD emptyPerfCategory
    let score := pyInt (perf_category.score.getD 0 * 100)
    let lcp_audit := (dictGet audits "largest-contentful-paint").getD emptyAudit
    let lcp_ms := lcp_audit.numericValue.getD 0
    let lcp_seconds := pyRound (lcp_ms / 1000) 2
    let cls_audit := (dictGet audits "cumulative-layout-shift").getD emptyAudit
    let cls_value := pyRound (cls_audit.numericValue.getD 0) 4
    let recommendations := extract_smart_recommendations audits
    some { score := score, lcp := lcp_seconds, cls := cls_value,
           recommendations := recommendations }
  | _ => none

/-- The site dict handed to `ReportGenerator.generate_report`: label, url and
the metrics flattened in.  `lcp` and `cls` are floats that the report only
ever interpolates into text, so the embedding carries their Python `str()`
rendering; `score` is also used arithmetically and stays an integer. -/
structure SiteResult where
  label : String
  url : String
  score : ℤ
  lcp : String
  cls : String
  recommendations : List Recommendation
deriving DecidableEq

/-- A box row of the report: `"║" + content.ljust(58) + "║"`, the shape of
every `report.append` between the border rows in `generate_report`. -/
def box (s : String) : String :=
  "║" ++ pyLjust s 58 ++ "║"

/-- The `status` and `detail` local variables of the competitor loop of
`generate_report` (src/main.py lines 514-524). -/
def compStatusDetail (my_score : ℤ) (comp : SiteResult) : String × String :=
  let diff := my_score - comp.score
  if 0 < diff then
    ("✅ " ++ comp.label,
     "→ " ++ toString comp.score ++ " puan (" ++ toString diff ++ " puan gerideler)")
  else if diff < 0 then
    ("⚠️  " ++ comp.label,
     "→ " ++ toString comp.score ++ " puan (" ++ toString diff.natAbs ++ " puan ÖNDEler!)")
  else
    ("🔄 " ++ comp.label,
     "→ " ++ toString comp.score ++ " puan (Eşit)")

/-- The `line` appended for one competitor (src/main.py line 526). -/
def compLine (my_score : ℤ) (comp : SiteResult) : String :=
  let sd := compStatusDetail my_score comp
  "    " ++ pyLjust sd.1 25 ++ " " ++ sd.2

/-- One step of the word-wrap loop over the action text (src/main.py lines
580-585): accumulated rows so far and the current line. -/
def wrapStep (acc : List String × String) (word : String) : List String × String :=
  if (acc.2 ++ word).length ≤ 54 then (acc.1, acc.2 ++ word ++ " ")
  else (acc.1 ++ [box acc.2], "         " ++ word ++ " ")

/-- The word-wrapped action rows for one recommendation (src/main.py lines
577-587): start from `"       → "`, flush a row when a word would push the
line past 54 characters, keep a non-blank final line. -/
def wrapAction (action : String) : List String :=
  let r := (pySplitWs action).foldl wrapStep ([], "       → ")
  if r.2.trim ≠ "" then r.1 ++ [box r.2] else r.1

/-- The title row and optional displayValue row for recommendation number
`i` (src/main.py lines 541-571). -/
def recHeaderLines (i : ℕ) (recItem : Recommendation) : List String :=
  let priority_emoji := if i = 1 then "🔴" else if i ≤ 3 then "🟠" else "🟡"
  let title0 := recItem.title
  let title := if 48 < title0.length then pyTake title0 45 ++ "..." else title0
  let display_val := if recItem.display_value ≠ "" then " [" ++ recItem.display_value ++ "]" else ""
  let title_line0 := "    " ++ priority_emoji ++ " " ++ toString i ++ ". " ++ title
  let title_line := if 56 < title_line0.length then pyTake title_line0 53 ++ "..." else title_line0
  [box title_line]
  ++ (if display_val ≠ "" then
        let dv_line0 := "       Potansiyel Kazanç: " ++ display_val
        let dv_line := if 56 < dv_line0.length then pyTake dv_line0 53 ++ "..." else dv_line0
        [box dv_line]
      else [])

/-- The action rows for one recommendation (src/main.py lines 575-587):
nothing when the action text is empty. -/
def recActionLines (recItem : Recommendation) : List String :=
  if recItem.action ≠ "" then wrapAction recItem.action else []

/-- All rows the loop body emits for recommendation number `i` of
`total_recs` (src/main.py lines 540-591): header, action rows only when
`i <= 5`, one blank row when `i % 3 == 0 and i < total_recs`. -/
def recLines (total_recs i : ℕ) (recItem : Recommendation) : List String :=
  recHeaderLines i recItem
  ++ (if i ≤ 5 then recActionLines recItem else [])
  ++ (if i % 3 = 0 ∧ i < total_recs then [box " "] else [])

/-- The action-items section (src/main.py lines 535-593): a count row, a
blank row and the per-recommendation rows when recommendations exist, a
single congratulatory row otherwise. -/
def actionItemLines (recommendations : List Recommendation) : List String :=
  if recommendations ≠ [] then
    let total_recs := recommendations.length
    [box ("    Toplam " ++ toString total_recs ++ " iyileştirme fırsatı bulundu:"), box " "]
    ++ (recommendations.enumFrom 1).flatMap fun p => recLines total_recs p.1 p.2
  else
    [box "    🎉 Harika! Kritik bir iyileştirme önerisi yok."]

/-- The boxed block of `ReportGenerator.generate_report` (src/main.py lines
497-596), one string per row, in append order.  `date_str` stands for
`datetime.now().strftime("%d %B %Y")`. -/
def boxLines (date_str : String) (my_site : SiteResult) (competitors : List SiteResult) :
    List String :=
  ["╔" ++ String.replicate 58 '═' ++ "╗",
   "║" ++ pyCenter "🚀 SEO-PULSE PERFORMANS RAPORU" 58 ++ "║",
   "║" ++ pyCenter date_str 58 ++ "║",
   "╠" ++ String.replicate 58 '═' ++ "╣",
   box " 📊 SİTEMİZ",
   box ("    URL: " ++ my_site.url),
   box ("    Performance: " ++ toString my_site.score ++ "/100 | LCP: "
        ++ my_site.lcp ++ "s | CLS: " ++ my_site.cls),
   "╠" ++ String.replicate 58 '═' ++ "╣",
   box " 🏁 RAKİP KARŞILAŞTIRMASI",
   box " "]
  ++ competitors.map (fun comp => box (compLine my_site.score comp))
  ++ ["╠" ++ String.replicate 58 '═' ++ "╣",
      box " 📋 YAPILMASI GEREKENLER (Action Items)",
      box " "]
  ++ actionItemLines my_site.recommendations
  ++ [box " ",
      "╚" ++ String.replicate 58 '═' ++ "╝"]

/-- One data row of the closing summary table (src/main.py lines 604-607). -/
def summaryRow (site : SiteResult) : String :=
  pyLjust (pyTake site.label 18) 20 ++ " " ++ pyLjust (toString site.score) 8 ++ " "
  ++ pyLjust site.lcp 8 ++ " " ++ pyLjust site.cls 8

/-- The plain summary table after the box (src/main.py lines 599-611). -/
def summaryLines (my_site : SiteResult) (competitors : List SiteResult) : List String :=
  ["",
   "📈 METRİK DETAYLARI:",
   String.replicate 40 '─',
   pyLjust "Site" 20 ++ " " ++ pyLjust "Puan" 8 ++ " " ++ pyLjust "LCP" 8 ++ " " ++ pyLjust "CLS" 8,
   String.replicate 40 '─',
   summaryRow my_site]
  ++ competitors.map summaryRow
  ++ [String.replicate 40 '─',
      "",
      "Bu rapor SEO-Pulse tarafından otomatik oluşturulmuştur."]

/-- All rows of the report, in append order. -/
def reportLines (date_str : String) (my_site : SiteResult) (competitors : List SiteResult) :
    List String :=
  boxLines date_str my_site competitors ++ summaryLines my_site competitors

/-- `ReportGenerator.generate_report`: the rows joined with newlines. -/
def generate_report (date_str : String) (my_site : SiteResult)
    (competitors : List SiteResult) : String :=
  String.intercalate "\n" (reportLines date_str my_site competitors)

/-- C3: an audit entry with a missing (`None`) score is excluded whatever its other fields, an entry with score at least 0.9 is excluded, and below 0.9 the entry passes the score guard: it is excluded only when the opportunity/savings condition fails. A missing-score entry also contributes nothing to the extractor output. -/
theorem score_filter_boundary (audit_id : String) (a : AuditData) :
    (a.score = none → mkOpportunity audit_id a = none)
    ∧ (∀ s : ℚ, a.score = some s → 9 / 10 ≤ s → mkOpportunity audit_id a = none)
    ∧ (∀ s : ℚ, a.score = some s → s < 9 / 10 →
        (mkOpportunity audit_id a = none ↔
          ¬ ((a.details.getD emptyDetails).type.getD "" = "opportunity"
             ∨ (a.details.getD emptyDetails).overallSavingsMs.isSome = true
             ∨ (a.details.getD emptyDetails).overallSavingsBytes.isSome = true)))
    ∧ (a.score = none → extract_smart_recommendations [(audit_id, a)] = []) := by
  refine ⟨fun h => ?_, fun s hs hge => ?_, fun s hs hlt => ?_, fun h => ?_⟩
  · simp [mkOpportunity, h]
  · simp [mkOpportunity, hs, hge]
  · simp [mkOpportunity, hs, not_le.mpr hlt]
  · simp [extract_smart_recommendations, opportunitiesOf, mkOpportunity, h]

/-- Helper: every opportunity the loop builds carries `savings = savings_ms + savings_bytes / 1000`. -/
theorem mkOpportunity_savings_eq (audit_id : String) (a : AuditData) (o : Opportunity)
    (h : mkOpportunity audit_id a = some o) :
    o.savings = o.savings_ms + o.savings_bytes / 1000 := by
  cases hs : a.score with
  | none => simp [mkOpportunity, hs] at h
  | some s =>
    simp only [mkOpportunity, hs] at h
    split at h
    · exact absurd h (by simp)
    · split at h
      · obtain rfl := Option.some.inj h; rfl
      · exact absurd h (by simp)

/-- Helper: the savings invariant holds for every accumulated opportunity. -/
theorem opportunitiesOf_savings (audits : List (String × AuditData)) (o : Opportunity)
    (ho : o ∈ opportunitiesOf audits) : o.savings = o.savings_ms + o.savings_bytes / 1000 := by
  obtain ⟨p, _, hp⟩ := List.mem_filterMap.mp ho
  exact mkOpportunity_savings_eq p.1 p.2 o hp

/-- C4: the extractor output is sorted descending by the key `overallSavingsMs + overallSavingsBytes/1000`, the sort is stable (two opportunities with equal key keep their relative input order in the output), and the whole filtered list is returned: no truncation and no minimum-count floor. -/
theorem extract_order_stable_total (audits : List (String × AuditData)) :
    (extract_smart_recommendations audits).Pairwise
      (fun x y => y.savings_ms + y.savings_bytes / 1000 ≤ x.savings_ms + x.savings_bytes / 1000)
    ∧ (∀ a b : Opportunity, [a, b].Sublist (opportunitiesOf audits) → a.savings = b.savings →
        [toRecommendation a, toRecommendation b].Sublist (extract_smart_recommendations audits))
    ∧ (extract_smart_recommendations audits).length = (opportunitiesOf audits).length := by
  have trans : ∀ x y z : Opportunity, decide (y.savings ≤ x.savings) = true →
      decide (z.savings ≤ y.savings) = true → decide (z.savings ≤ x.savings) = true := by
    intro x y z hxy hyz
    simp only [decide_eq_true_eq] at *
    exact hyz.trans hxy
  have total : ∀ x y : Opportunity,
      (decide (y.savings ≤ x.savings) || decide (x.savings ≤ y.savings)) = true := by
    intro x y
    rcases le_total y.savings x.savings with h | h <;> simp [h]
  have hperm := List.mergeSort_perm (opportunitiesOf audits)
      (fun a b => decide (b.savings ≤ a.savings))
  refine ⟨?_, ?_, ?_⟩
  · have hs := List.sorted_mergeSort trans total (opportunitiesOf audits)
    simp only [extract_smart_recommendations, List.pairwise_map, toRecommendation]
    refine hs.imp_of_mem ?_
    intro a b ha hb hr
    have ha' := opportunitiesOf_savings audits a (hperm.subset ha)
    have hb' := opportunitiesOf_savings audits b (hperm.subset hb)
    rw [← ha', ← hb']
    exact of_decide_eq_true hr
  · intro a b hsub heq
    have hpair : ([a, b] : List Opportunity).Pairwise
        (fun x y => decide (y.savings ≤ x.savings) = true) := by
      simp [heq]
    have := List.sublist_mergeSort trans total hpair hsub
    simpa only [extract_smart_recommendations] using this.map toRecommendation
  · simp only [extract_smart_recommendations, List.length_map]
    exact hperm.length_eq

/-- C5: an entry that passes the score filter is included iff its `details.type` is "opportunity" or `details` carries `overallSavingsMs` or `overallSavingsBytes`; a single entry contributes exactly one output element; and a zero-savings opportunity-typed entry is still included, with ranking key 0 and its action left without a savings suffix. -/
theorem opportunity_inclusion (audit_id : String) (a : AuditData) (s : ℚ)
    (hs : a.score = some s) (hlt : s < 9 / 10) :
    ((mkOpportunity audit_id a).isSome = true ↔
      ((a.details.getD emptyDetails).type.getD "" = "opportunity"
        ∨ (a.details.getD emptyDetails).overallSavingsMs.isSome = true
        ∨ (a.details.getD emptyDetails).overallSavingsBytes.isSome = true))
    ∧ (extract_smart_recommendations [(audit_id, a)]).length
        = (if (mkOpportunity audit_id a).isSome then 1 else 0)
    ∧ ((a.details.getD emptyDetails).type.getD "" = "opportunity" →
        (a.details.getD emptyDetails).overallSavingsMs.getD 0 = 0 →
        (a.details.getD emptyDetails).overallSavingsBytes.getD 0 = 0 →
        ∃ o, mkOpportunity audit_id a = some o ∧ o.savings = 0
          ∧ o.action = ((dictGet AUDIT_TRANSLATIONS audit_id).map fun t => t.action).getD
              (pyTake (a.description.getD "") 150)) := by
  refine ⟨?_, ?_, fun hty hms hby => ?_⟩
  · simp only [mkOpportunity, hs]
    split
    · next hge => exact absurd hlt (not_lt.mpr hge)
    · split
      · next hcond =>
        simp only [Option.isSome_some, true_iff]
        simpa using hcond
      · next hcond =>
        simp only [Option.isSome_none, Bool.false_eq_true, false_iff]
        simpa using hcond
  · cases hmk : mkOpportunity audit_id a <;>
      simp [extract_smart_recommendations, opportunitiesOf, hmk]
  · simp only [mkOpportunity, hs, if_neg (not_le.mpr hlt)]
    rw [if_pos]
    · refine ⟨_, rfl, ?_, ?_⟩
      · simp only [hms, hby]
        norm_num
      · simp [hms, hby]
    · simp [hty]

/-- C6: the action string of every included entry is its base text followed by the savings suffix: the truncated `overallSavingsMs` with the ms unit when positive, else the truncated `overallSavingsBytes/1024` with the KB unit when the bytes are positive, else nothing. -/
theorem action_savings_suffix (audit_id : String) (a : AuditData) (o : Opportunity)
    (h : mkOpportunity audit_id a = some o) :
    ∃ base : String, o.action = base ++
      (if 0 < (a.details.getD emptyDetails).overallSavingsMs.getD 0 then
         " (~" ++ toString (pyInt ((a.details.getD emptyDetails).overallSavingsMs.getD 0))
           ++ "ms tasarruf)"
       else if 0 < (a.details.getD emptyDetails).overallSavingsBytes.getD 0 then
         " (~" ++ toString (pyInt ((a.details.getD emptyDetails).overallSavingsBytes.getD 0 / 1024))
           ++ "KB tasarruf)"
       else "") := by
  cases hs : a.score with
  | none => simp [mkOpportunity, hs] at h
  | some s =>
    simp only [mkOpportunity, hs] at h
    split at h
    · exact absurd h (by simp)
    · split at h
      · obtain rfl := Option.some.inj h
        exact ⟨_, rfl⟩
      · exact absurd h (by simp)

/-- C3 witness: the score guard at `None`, at 0.9 and at 0.89999, on a concrete opportunity-typed entry. -/
theorem score_filter_boundary_witness :
    mkOpportunity "img" ⟨none, none, none, none, none, some ⟨some "opportunity", none, none⟩⟩ = none
    ∧ mkOpportunity "img" ⟨some (9 / 10), none, none, none, none, some ⟨some "opportunity", none, none⟩⟩ = none
    ∧ mkOpportunity "img" ⟨some (89999 / 100000), none, none, none, none, some ⟨some "opportunity", none, none⟩⟩ ≠ none := by
  refine ⟨(score_filter_boundary "img" _).1 rfl,
          (score_filter_boundary "img" _).2.1 (9 / 10) rfl (by norm_num),
          fun hn => ?_⟩
  exact ((score_filter_boundary "img" _).2.2.1 (89999 / 100000) rfl (by norm_num)).mp hn
    (Or.inl rfl)

/-- C4 witness: two concrete equal-savings entries keep their input order in the extractor output. -/
theorem extract_order_stable_total_witness :
    [toRecommendation ⟨"zza", "T1", "D1", "", 0, 1/2, 0, 0⟩,
     toRecommendation ⟨"zzb", "T2", "D2", "", 0, 1/2, 0, 0⟩].Sublist
      (extract_smart_recommendations
        [("zza", ⟨some (1/2), some "T1", some "D1", none, none, some ⟨some "opportunity", some 0, none⟩⟩),
         ("zzb", ⟨some (1/2), some "T2", some "D2", none, none, some ⟨some "opportunity", some 0, none⟩⟩)]) := by
  have hda : dictGet AUDIT_TRANSLATIONS "zza" = none := by decide
  have hdb : dictGet AUDIT_TRANSLATIONS "zzb" = none := by decide
  have hA : mkOpportunity "zza"
      ⟨some (1/2), some "T1", some "D1", none, none, some ⟨some "opportunity", some 0, none⟩⟩
      = some ⟨"zza", "T1", "D1", "", 0, 1/2, 0, 0⟩ := by
    simp only [mkOpportunity, hda]
    rw [if_neg (by norm_num), if_pos (by simp)]
    simp [emptyDetails, pyTake]
  have hB : mkOpportunity "zzb"
      ⟨some (1/2), some "T2", some "D2", none, none, some ⟨some "opportunity", some 0, none⟩⟩
      = some ⟨"zzb", "T2", "D2", "", 0, 1/2, 0, 0⟩ := by
    simp only [mkOpportunity, hdb]
    rw [if_neg (by norm_num), if_pos (by simp)]
    simp [emptyDetails, pyTake]
  have h : opportunitiesOf
      [("zza", ⟨some (1/2), some "T1", some "D1", none, none, some ⟨some "opportunity", some 0, none⟩⟩),
       ("zzb", ⟨some (1/2), some "T2", some "D2", none, none, some ⟨some "opportunity", some 0, none⟩⟩)]
      = [⟨"zza", "T1", "D1", "", 0, 1/2, 0, 0⟩, ⟨"zzb", "T2", "D2", "", 0, 1/2, 0, 0⟩] := by
    simp only [opportunitiesOf, List.filterMap_cons, List.filterMap_nil, hA, hB]
  exact (extract_order_stable_total _).2.1 _ _ (by rw [h]) rfl

/-- C5 witness: a concrete zero-savings opportunity with score 0.89999 is included with ranking key 0 and no suffix. -/
theorem opportunity_inclusion_witness :
    ∃ o, mkOpportunity "zzc" ⟨some (89999 / 100000), some "T", some "Do something", none, none,
        some ⟨some "opportunity", some 0, some 0⟩⟩ = some o ∧ o.savings = 0
      ∧ o.action = ((dictGet AUDIT_TRANSLATIONS "zzc").map fun t => t.action).getD
          (pyTake ((some "Do something").getD "") 150) :=
  (opportunity_inclusion "zzc" _ (89999 / 100000) rfl (by norm_num)).2.2 rfl rfl rfl

/-- C6 witness: `overallSavingsMs = 1500` yields the suffix " (~1500ms tasarruf)" and `overallSavingsBytes = 2048` (no ms) yields " (~2KB tasarruf)" (2, not 2048), on concrete entries. -/
theorem action_savings_suffix_witness :
    (∃ base : String,
      (⟨"zza", "T1", "Fix (~1500ms tasarruf)", "", 1500, 1/2, 1500, 0⟩ : Opportunity).action
        = base ++ " (~1500ms tasarruf)")
    ∧ (∃ base : String,
      (⟨"zzb", "T2", "Fix (~2KB tasarruf)", "", 2048/1000, 1/2, 0, 2048⟩ : Opportunity).action
        = base ++ " (~2KB tasarruf)") := by
  have hda : dictGet AUDIT_TRANSLATIONS "zza" = none := by decide
  have hdb : dictGet AUDIT_TRANSLATIONS "zzb" = none := by decide
  constructor
  · have hA : mkOpportunity "zza"
        ⟨some (1/2), some "T1", some "Fix", none, none, some ⟨none, some 1500, none⟩⟩
        = some ⟨"zza", "T1", "Fix (~1500ms tasarruf)", "", 1500, 1/2, 1500, 0⟩ := by
      simp only [mkOpportunity, hda]
      rw [if_neg (by norm_num), if_pos (by simp)]
      simp [emptyDetails, pyTake]
      norm_num [pyInt]
      decide
    obtain ⟨base, hb⟩ := action_savings_suffix "zza" _ _ hA
    refine ⟨base, ?_⟩
    rw [hb]
    congr 1
  · have hB : mkOpportunity "zzb"
        ⟨some (1/2), some "T2", some "Fix", none, none, some ⟨none, none, some 2048⟩⟩
        = some ⟨"zzb", "T2", "Fix (~2KB tasarruf)", "", 2048/1000, 1/2, 0, 2048⟩ := by
      simp only [mkOpportunity, hdb]
      rw [if_neg (by norm_num), if_pos (by simp)]
      simp [emptyDetails, pyTake]
      norm_num [pyInt]
      decide
    obtain ⟨base, hb⟩ := action_savings_suffix "zzb" _ _ hB
    refine ⟨base, ?_⟩
    rw [hb]
    congr 1
    rw [if_neg (by norm_num), if_pos (by norm_num)]
    norm_num [pyInt]
    decide

/-- C1 (amended): `analyze` scales the performance category score by 100 and truncates toward zero with `int()` (not round-to-nearest); a category score of 0.73 yields 73 and a missing/null score yields 0. -/
theorem score_scaling_truncates :
    (∀ (s : ℚ) (lh : LighthouseResult), lh.categories = some ⟨some ⟨some s⟩⟩ →
      ∃ m, analyze (.success ⟨some lh⟩) = some m ∧ m.score = pyInt (s * 100))
    ∧ (∀ lh : LighthouseResult,
        lh.categories = none ∨ lh.categories = some ⟨none⟩ ∨ lh.categories = some ⟨some ⟨none⟩⟩ →
        ∃ m, analyze (.success ⟨some lh⟩) = some m ∧ m.score = 0)
    ∧ pyInt ((73 / 100 : ℚ) * 100) = 73 := by
  refine ⟨fun s lh h => ⟨_, rfl, ?_⟩, fun lh h => ⟨_, rfl, ?_⟩, ?_⟩
  · simp [analyze, h]
  · rcases h with h | h | h <;>
      simp [analyze, h, emptyCategories, emptyPerfCategory, pyInt]
  · norm_num [pyInt]

/-- C1 witness: a concrete response with category score 0.73 yields 73, and one with no categories yields 0. -/
theorem score_scaling_truncates_witness :
    (∃ m, analyze (.success ⟨some ⟨some ⟨some ⟨some (73 / 100)⟩⟩, some []⟩⟩) = some m
        ∧ m.score = pyInt ((73 / 100 : ℚ) * 100))
    ∧ (∃ m, analyze (.success ⟨some ⟨none, some []⟩⟩) = some m ∧ m.score = 0) :=
  ⟨(score_scaling_truncates).1 (73 / 100) ⟨some ⟨some ⟨some (73 / 100)⟩⟩, some []⟩ rfl,
   (score_scaling_truncates).2.1 ⟨none, some []⟩ (Or.inl rfl)⟩

/-- C1 counterexample: for the response value 0.567 the code returns the integer 56, while scaling by 100 and rounding to an integer gives 57, so `analyze` truncates rather than rounds. -/
theorem score_rounding_counterexample :
    (∃ m, analyze (.success ⟨some ⟨some ⟨some ⟨some (567 / 1000)⟩⟩, some []⟩⟩) = some m
        ∧ m.score = 56)
    ∧ round ((567 / 1000 : ℚ) * 100) = 57 ∧ (56 : ℤ) ≠ 57 := by
  refine ⟨⟨_, rfl, ?_⟩, ?_, by decide⟩
  · simp [analyze]
    norm_num [pyInt]
  · rw [round_eq]
    norm_num

/-- C7: every failure of the external call (timeout, HTTP error of any status, transport exception, lookup fault, any other fault) makes `analyze` return the `None` sentinel, and on a parsed 2xx body it always returns a metrics record; no fault propagates. -/
theorem analyze_failure_sentinel :
    analyze .timeout = none
    ∧ (∀ status : ℕ, analyze (.httpError status) = none)
    ∧ analyze .requestException = none
    ∧ analyze .keyError = none
    ∧ analyze .otherException = none
    ∧ (∀ data : PSResponse, ∃ m, analyze (.success data) = some m) :=
  ⟨rfl, fun _ => rfl, rfl, rfl, rfl, fun _ => ⟨_, rfl⟩⟩

/-- C10 counterexample: a 2xx body whose `lighthouseResult` lacks `categories` but carries an `audits` entry with LCP 2500 ms returns score 0 but lcp 2.5, not the lcp 0.0 the claim states for every response lacking a sub-field. -/
theorem missing_fields_counterexample :
    analyze (.success ⟨some ⟨none, some [("largest-contentful-paint",
        ⟨none, none, none, none, some 2500, none⟩)]⟩⟩)
      = some ⟨0, 5 / 2, 0, []⟩ ∧ ((5 : ℚ) / 2 ≠ 0) := by
  constructor
  · simp [analyze, extract_smart_recommendations, opportunitiesOf, List.filterMap_cons,
      mkOpportunity, emptyCategories, emptyPerfCategory, emptyAudit, dictGet]
    norm_num [pyInt, pyRound, pyRoundHalfEven]
  · norm_num

/-- C10 (amended): a body lacking `lighthouseResult`, or carrying it with both `categories` and `audits` missing, yields `some {score 0, lcp 0, cls 0, no recommendations}`; when only one sub-field is missing no error branch is taken and no `None` is returned either, and the metrics derived from the missing part default (score 0 without `categories`; lcp 0, cls 0 and empty recommendations without `audits`). -/
theorem defaulting_lookups_never_fail :
    (∀ resp : PSResponse, resp.lighthouseResult = none →
      analyze (.success resp) = some ⟨0, 0, 0, []⟩)
    ∧ analyze (.success ⟨some ⟨none, none⟩⟩) = some ⟨0, 0, 0, []⟩
    ∧ (∀ lh : LighthouseResult, lh.categories = none →
        ∃ m, analyze (.success ⟨some lh⟩) = some m ∧ m.score = 0)
    ∧ (∀ lh : LighthouseResult, lh.audits = none →
        ∃ m, analyze (.success ⟨some lh⟩) = some m ∧ m.lcp = 0 ∧ m.cls = 0
          ∧ m.recommendations = []) := by
  refine ⟨fun resp h => ?_, ?_, fun lh h => ⟨_, rfl, ?_⟩, fun lh h => ⟨_, rfl, ?_, ?_, ?_⟩⟩
  · simp [analyze, h, emptyLighthouse, emptyCategories, emptyPerfCategory, emptyAudit, dictGet,
      extract_smart_recommendations, opportunitiesOf]
    norm_num [pyInt, pyRound, pyRoundHalfEven]
  · simp [analyze, emptyCategories, emptyPerfCategory, emptyAudit, dictGet,
      extract_smart_recommendations, opportunitiesOf]
    norm_num [pyInt, pyRound, pyRoundHalfEven]
  · simp [analyze, h, emptyCategories, emptyPerfCategory, pyInt]
  · simp [analyze, h, emptyAudit, dictGet]
    norm_num [pyRound, pyRoundHalfEven]
  · simp [analyze, h, emptyAudit, dictGet]
    norm_num [pyRound, pyRoundHalfEven]
  · simp [analyze, h, extract_smart_recommendations, opportunitiesOf]

/-- C10 witness: the defaulting behaviour at three concrete responses with missing substructures. -/
theorem defaulting_lookups_never_fail_witness :
    analyze (.success ⟨none⟩) = some ⟨0, 0, 0, []⟩
    ∧ (∃ m, analyze (.success ⟨some ⟨none, some []⟩⟩) = some m ∧ m.score = 0)
    ∧ (∃ m, analyze (.success ⟨some ⟨some ⟨some ⟨some (1 / 2)⟩⟩, none⟩⟩) = some m
        ∧ m.lcp = 0 ∧ m.cls = 0 ∧ m.recommendations = []) :=
  ⟨(defaulting_lookups_never_fail).1 ⟨none⟩ rfl,
   (defaulting_lookups_never_fail).2.2.1 ⟨none, some []⟩ rfl,
   (defaulting_lookups_never_fail).2.2.2 ⟨some ⟨some ⟨some (1 / 2)⟩⟩, none⟩ rfl⟩

/-- Helper: `ljust(w)` never yields fewer than `w` characters. -/
theorem pyLjust_length_ge (s : String) (w : ℕ) : w ≤ (pyLjust s w).length := by
  unfold pyLjust
  split
  · assumption
  · next h =>
    show w ≤ (s.data ++ List.replicate (w - s.length) ' ').length
    rw [List.length_append, List.length_replicate]
    have hsd : s.data.length = s.length := rfl
    have : s.length ≤ w := Nat.le_of_not_le h
    omega

/-- Helper: `center(w)` never yields fewer than `w` characters. -/
theorem pyCenter_length_ge (s : String) (w : ℕ) : w ≤ (pyCenter s w).length := by
  unfold pyCenter
  split
  · assumption
  · next h =>
    show w ≤ (List.replicate _ ' ' ++ s.data ++ List.replicate _ ' ').length
    rw [List.length_append, List.length_append, List.length_replicate, List.length_replicate]
    have hsd : s.data.length = s.length := rfl
    have hle : s.length ≤ w := Nat.le_of_not_le (by simpa using h)
    have hb : (w - s.length) % 2 * (w % 2) ≤ 1 := by
      have h1 : (w - s.length) % 2 ≤ 1 := by omega
      have h2 : w % 2 ≤ 1 := by omega
      calc (w - s.length) % 2 * (w % 2) ≤ 1 * 1 := Nat.mul_le_mul h1 h2
        _ = 1 := rfl
    omega

/-- Helper: every box row is at least 60 characters (58 interior plus the two borders). -/
theorem box_length_ge (s : String) : 60 ≤ (box s).length := by
  unfold box
  rw [String.length_append, String.length_append]
  have := pyLjust_length_ge s 58
  have h1 : ("║" : String).length = 1 := by decide
  omega

/-- Helper: the word-wrap fold only emits box rows whose content starts with the arrow prefix or the nine-space continuation indent, and the current line keeps that shape. -/
theorem wrapFold_box (words : List String) (lines : List String) (cur : String)
    (hl : ∀ l ∈ lines, ∃ s, l = box s ∧ ∃ r : List Char,
        s.data = ("       → ").data ++ r ∨ s.data = ("         ").data ++ r)
    (hc : ∃ r : List Char, cur.data = ("       → ").data ++ r
        ∨ cur.data = ("         ").data ++ r) :
    (∀ l ∈ (words.foldl wrapStep (lines, cur)).1, ∃ s, l = box s ∧ ∃ r : List Char,
        s.data = ("       → ").data ++ r ∨ s.data = ("         ").data ++ r)
    ∧ (∃ r : List Char, ((words.foldl wrapStep (lines, cur)).2).data = ("       → ").data ++ r
        ∨ ((words.foldl wrapStep (lines, cur)).2).data = ("         ").data ++ r) := by
  induction words generalizing lines cur with
  | nil => exact ⟨hl, hc⟩
  | cons w ws ih =>
    simp only [List.foldl_cons]
    unfold wrapStep
    split
    · refine ih lines (cur ++ w ++ " ") hl ?_
      obtain ⟨r, hr | hr⟩ := hc
      · exact ⟨r ++ (w.data ++ " ".data), Or.inl (by simp [String.data_append, hr])⟩
      · exact ⟨r ++ (w.data ++ " ".data), Or.inr (by simp [String.data_append, hr])⟩
    · refine ih (lines ++ [box cur]) ("         " ++ w ++ " ") ?_ ?_
      · intro l hmem
        rcases List.mem_append.mp hmem with h | h
        · exact hl l h
        · rw [List.mem_singleton.mp h]
          exact ⟨cur, rfl, hc⟩
      · exact ⟨w.data ++ " ".data, Or.inr (by simp [String.data_append])⟩

/-- Helper: every row of the wrapped action block is a box row starting with the arrow prefix or the continuation indent. -/
theorem wrapAction_box (action : String) :
    ∀ l ∈ wrapAction action, ∃ s, l = box s ∧ ∃ r : List Char,
        s.data = ("       → ").data ++ r ∨ s.data = ("         ").data ++ r := by
  intro l hl
  simp only [wrapAction] at hl
  have h := wrapFold_box (pySplitWs action) [] "       → "
    (by intro l h; exact absurd h (List.not_mem_nil l))
    ⟨[], Or.inl (by simp)⟩
  split at hl
  · rcases List.mem_append.mp hl with h1 | h1
    · exact h.1 l h1
    · rw [List.mem_singleton.mp h1]
      exact ⟨_, rfl, h.2⟩
  · exact h.1 l hl

/-- Helper: the title and displayValue rows are box rows. -/
theorem recHeaderLines_box (i : ℕ) (ri : Recommendation) :
    ∀ l ∈ recHeaderLines i ri, ∃ s, l = box s := by
  intro l hl
  unfold recHeaderLines at hl
  rcases List.mem_append.mp hl with h | h
  · exact ⟨_, List.mem_singleton.mp h⟩
  · split at h
    · exact ⟨_, List.mem_singleton.mp h⟩
    · exact absurd h (List.not_mem_nil l)

/-- Helper: every row emitted for one recommendation is a box row. -/
theorem recLines_box (t i : ℕ) (ri : Recommendation) :
    ∀ l ∈ recLines t i ri, ∃ s, l = box s := by
  intro l hl
  unfold recLines at hl
  rcases List.mem_append.mp hl with h | h
  · rcases List.mem_append.mp h with h1 | h1
    · exact recHeaderLines_box i ri l h1
    · split at h1
      · unfold recActionLines at h1
        split at h1
        · obtain ⟨s, hs, -⟩ := wrapAction_box ri.action l h1
          exact ⟨s, hs⟩
        · exact absurd h1 (List.not_mem_nil l)
      · exact absurd h1 (List.not_mem_nil l)
  · split at h
    · exact ⟨_, List.mem_singleton.mp h⟩
    · exact absurd h (List.not_mem_nil l)

/-- Helper: every row of the action-items section is a box row. -/
theorem actionItemLines_box (recs : List Recommendation) :
    ∀ l ∈ actionItemLines recs, ∃ s, l = box s := by
  intro l hl
  unfold actionItemLines at hl
  split at hl
  · rcases List.mem_append.mp hl with h | h
    · rcases List.mem_cons.mp h with h | h
      · exact ⟨_, h⟩
      · exact ⟨_, List.mem_singleton.mp h⟩
    · obtain ⟨p, -, hp⟩ := List.mem_flatMap.mp h
      exact recLines_box recs.length p.1 p.2 l hp
  · exact ⟨_, List.mem_singleton.mp hl⟩

/-- Helper: `ljust(w)` appends padding after the content: the result is the
content followed by spaces, of exactly `w` characters when the content fits,
and the content unchanged (never truncated) when it is already wider. -/
theorem pyLjust_pads_or_keeps (s : String) (w : ℕ) :
    ∃ pad : String, pyLjust s w = s ++ pad
      ∧ (s.length ≤ w → (s ++ pad).length = w)
      ∧ (w < s.length → s ++ pad = s) := by
  unfold pyLjust
  split
  · next h =>
    refine ⟨"", (String.append_empty s).symm, fun hle => ?_, fun _ => String.append_empty s⟩
    rw [String.append_empty]
    omega
  · next h =>
    refine ⟨⟨List.replicate (w - s.length) ' '⟩, ?_, fun _ => ?_, fun hlt => ?_⟩
    · apply String.ext
      simp [String.data_append]
    · rw [String.length_append]
      have hp : (⟨List.replicate (w - s.length) ' '⟩ : String).length = w - s.length := by
        show (List.replicate (w - s.length) ' ').length = w - s.length
        exact List.length_replicate _ _
      rw [hp]
      omega
    · exact absurd hlt (by omega)

/-- Helper: `center(w)` puts padding around the content: the result is the
content between two space runs, of exactly `w` characters when the content
fits, and the content unchanged (never truncated) when it is already wider. -/
theorem pyCenter_pads_or_keeps (s : String) (w : ℕ) :
    ∃ lpad rpad : String, pyCenter s w = lpad ++ s ++ rpad
      ∧ (s.length ≤ w → (lpad ++ s ++ rpad).length = w)
      ∧ (w < s.length → lpad ++ s ++ rpad = s) := by
  unfold pyCenter
  split
  · next h =>
    refine ⟨"", "", ?_, fun hle => ?_, fun _ => ?_⟩
    · rw [String.empty_append, String.append_empty]
    · rw [String.empty_append, String.append_empty]
      omega
    · rw [String.empty_append, String.append_empty]
  · next h =>
    refine ⟨⟨List.replicate ((w - s.length) / 2 + (w - s.length) % 2 * (w % 2)) ' '⟩,
            ⟨List.replicate ((w - s.length)
              - ((w - s.length) / 2 + (w - s.length) % 2 * (w % 2))) ' '⟩,
            ?_, fun _ => ?_, fun hlt => ?_⟩
    · apply String.ext
      simp [String.data_append]
    · rw [String.length_append, String.length_append]
      have hl : (⟨List.replicate ((w - s.length) / 2 + (w - s.length) % 2 * (w % 2)) ' '⟩
          : String).length = (w - s.length) / 2 + (w - s.length) % 2 * (w % 2) := by
        show (List.replicate _ ' ').length = _
        exact List.length_replicate _ _
      have hr : (⟨List.replicate ((w - s.length)
          - ((w - s.length) / 2 + (w - s.length) % 2 * (w % 2))) ' '⟩ : String).length
          = (w - s.length) - ((w - s.length) / 2 + (w - s.length) % 2 * (w % 2)) := by
        show (List.replicate _ ' ').length = _
        exact List.length_replicate _ _
      rw [hl, hr]
      have hle : s.length ≤ w := Nat.le_of_not_le (by simpa using h)
      have hb : (w - s.length) % 2 * (w % 2) ≤ 1 := by
        have h1 : (w - s.length) % 2 ≤ 1 := by omega
        have h2 : w % 2 ≤ 1 := by omega
        calc (w - s.length) % 2 * (w % 2) ≤ 1 * 1 := Nat.mul_le_mul h1 h2
          _ = 1 := rfl
      omega
    · exact absurd hlt (by omega)

/-- Helper: the border/content decomposition of a row forces at least 60
characters: a fitting interior is exactly 58, an over-wide one is the content
itself, longer than 58. -/
theorem decomp_min_width (l a s lpad rpad b : String)
    (ha : a.length = 1) (hb : b.length = 1)
    (he : l = a ++ (lpad ++ s ++ rpad) ++ b)
    (hfit : s.length ≤ 58 → (lpad ++ s ++ rpad).length = 58)
    (hwide : 58 < s.length → lpad ++ s ++ rpad = s) :
    60 ≤ l.length := by
  subst he
  rw [String.length_append, String.length_append, ha, hb]
  rcases le_or_lt s.length 58 with h | h
  · rw [hfit h]
  · rw [hwide h]
    omega

/-- Helper: a `box` row decomposes as border, content, right padding, border:
interior exactly 58 when the content fits, the untouched content otherwise. -/
theorem box_row_decomp (s0 : String) :
    ∃ a s lpad rpad b : String, a.length = 1 ∧ b.length = 1
      ∧ box s0 = a ++ (lpad ++ s ++ rpad) ++ b
      ∧ (s.length ≤ 58 → (lpad ++ s ++ rpad).length = 58)
      ∧ (58 < s.length → lpad ++ s ++ rpad = s) := by
  obtain ⟨pad, he, h1, h2⟩ := pyLjust_pads_or_keeps s0 58
  refine ⟨"║", s0, "", pad, "║", by decide, by decide, ?_, fun h => ?_, fun h => ?_⟩
  · unfold box
    rw [he, String.empty_append]
  · rw [String.empty_append]
    exact h1 h
  · rw [String.empty_append]
    exact h2 h

/-- Helper: a centered header row decomposes the same way. -/
theorem center_row_decomp (s0 : String) :
    ∃ a s lpad rpad b : String, a.length = 1 ∧ b.length = 1
      ∧ "║" ++ pyCenter s0 58 ++ "║" = a ++ (lpad ++ s ++ rpad) ++ b
      ∧ (s.length ≤ 58 → (lpad ++ s ++ rpad).length = 58)
      ∧ (58 < s.length → lpad ++ s ++ rpad = s) := by
  obtain ⟨lpad, rpad, he, h1, h2⟩ := pyCenter_pads_or_keeps s0 58
  exact ⟨"║", s0, lpad, rpad, "║", by decide, by decide, by rw [he], h1, h2⟩

/-- Helper: a border row decomposes with the 58-character rule as content. -/
theorem border_row_decomp (a b : String) (ha : a.length = 1) (hb : b.length = 1) :
    ∃ a2 s lpad rpad b2 : String, a2.length = 1 ∧ b2.length = 1
      ∧ a ++ String.replicate 58 '═' ++ b = a2 ++ (lpad ++ s ++ rpad) ++ b2
      ∧ (s.length ≤ 58 → (lpad ++ s ++ rpad).length = 58)
      ∧ (58 < s.length → lpad ++ s ++ rpad = s) := by
  have hlen : (String.replicate 58 '═').length = 58 := String.length_replicate _ _
  refine ⟨a, String.replicate 58 '═', "", "", b, ha, hb, ?_, fun _ => ?_, fun h => ?_⟩
  · rw [String.empty_append, String.append_empty]
  · rw [String.empty_append, String.append_empty, hlen]
  · rw [hlen] at h
    exact absurd h (lt_irrefl 58)

/-- C2 (amended): every row of the boxed block is at least 60 characters
(58 interior columns plus the two borders), and decomposes as a one-character
border, a padded interior, and a one-character border, where the interior is
the row content with its padding: exactly 58 columns when the content fits
within 58, and the content itself, untouched (not truncated, hence wider than
58), when it is longer. -/
theorem boxed_lines_min_width (date_str : String) (my_site : SiteResult)
    (competitors : List SiteResult) :
    ∀ l ∈ boxLines date_str my_site competitors,
      60 ≤ l.length
      ∧ ∃ a s lpad rpad b : String, a.length = 1 ∧ b.length = 1
          ∧ l = a ++ (lpad ++ s ++ rpad) ++ b
          ∧ (s.length ≤ 58 → (lpad ++ s ++ rpad).length = 58)
          ∧ (58 < s.length → lpad ++ s ++ rpad = s) := by
  intro l hl
  have main : ∃ a s lpad rpad b : String, a.length = 1 ∧ b.length = 1
      ∧ l = a ++ (lpad ++ s ++ rpad) ++ b
      ∧ (s.length ≤ 58 → (lpad ++ s ++ rpad).length = 58)
      ∧ (58 < s.length → lpad ++ s ++ rpad = s) := by
    unfold boxLines at hl
    rcases List.mem_append.mp hl with h | h
    · rcases List.mem_append.mp h with h | h
      · rcases List.mem_append.mp h with h | h
        · rcases List.mem_append.mp h with h | h
          · rcases List.mem_cons.mp h with rfl | h
            · exact border_row_decomp _ _ (by decide) (by decide)
            rcases List.mem_cons.mp h with rfl | h
            · exact center_row_decomp _
            rcases List.mem_cons.mp h with rfl | h
            · exact center_row_decomp _
            rcases List.mem_cons.mp h with rfl | h
            · exact border_row_decomp _ _ (by decide) (by decide)
            rcases List.mem_cons.mp h with rfl | h
            · exact box_row_decomp _
            rcases List.mem_cons.mp h with rfl | h
            · exact box_row_decomp _
            rcases List.mem_cons.mp h with rfl | h
            · exact box_row_decomp _
            rcases List.mem_cons.mp h with rfl | h
            · exact border_row_decomp _ _ (by decide) (by decide)
            rcases List.mem_cons.mp h with rfl | h
            · exact box_row_decomp _
            rcases List.mem_cons.mp h with rfl | h
            · exact box_row_decomp _
            exact absurd h (List.not_mem_nil l)
          · obtain ⟨c, -, rfl⟩ := List.mem_map.mp h
            exact box_row_decomp _
        · rcases List.mem_cons.mp h with rfl | h
          · exact border_row_decomp _ _ (by decide) (by decide)
          rcases List.mem_cons.mp h with rfl | h
          · exact box_row_decomp _
          rcases List.mem_cons.mp h with rfl | h
          · exact box_row_decomp _
          exact absurd h (List.not_mem_nil l)
      · obtain ⟨s, rfl⟩ := actionItemLines_box my_site.recommendations l h
        exact box_row_decomp _
    · rcases List.mem_cons.mp h with rfl | h
      · exact box_row_decomp _
      rcases List.mem_cons.mp h with rfl | h
      · exact border_row_decomp _ _ (by decide) (by decide)
      exact absurd h (List.not_mem_nil l)
  obtain ⟨a, s, lpad, rpad, b, ha, hb, he, hfit, hwide⟩ := main
  exact ⟨decomp_min_width l a s lpad rpad b ha hb he hfit hwide,
         a, s, lpad, rpad, b, ha, hb, he, hfit, hwide⟩

/-- C2 witness: the URL row of a concrete report is at least 60 characters
and carries the border/padded-content decomposition. -/
theorem boxed_lines_min_width_witness :
    60 ≤ ("║" ++ pyLjust ("    URL: " ++ "https://example.com") 58 ++ "║").length
    ∧ ∃ a s lpad rpad b : String, a.length = 1 ∧ b.length = 1
        ∧ "║" ++ pyLjust ("    URL: " ++ "https://example.com") 58 ++ "║"
            = a ++ (lpad ++ s ++ rpad) ++ b
        ∧ (s.length ≤ 58 → (lpad ++ s ++ rpad).length = 58)
        ∧ (58 < s.length → lpad ++ s ++ rpad = s) :=
  boxed_lines_min_width "07 October 2025"
    ⟨"Benim Sitem", "https://example.com", 90, "2.5", "0.1", []⟩ []
    ("║" ++ pyLjust ("    URL: " ++ "https://example.com") 58 ++ "║") (by decide)

/-- C2 counterexample: with a 74-character URL, not every boxed row of the concrete report has exactly 58 interior columns (the URL row is wider), refuting the claim that every boxed line is padded or truncated to exactly 58 regardless of input lengths. -/
theorem boxed_lines_width_counterexample :
    ¬ ∀ l ∈ boxLines "07 October 2025"
        ⟨"Benim Sitem",
         "https://www.aaaaaaaaaaaaaaaaaaaaaaaaaaaaaaaaaaaaaaaaaaaaaaaaaaaaaaaaaa.com",
         90, "2.5", "0.1", []⟩ ([] : List SiteResult),
      l.length - 2 = 58 := by
  decide

/-- C8: for each comparison the report computes `diff = primary.score - comparison.score` and emits, with a distinct marker per case, a row showing the comparison trailing by `diff` points when `diff > 0`, leading by `abs(diff)` points when `diff < 0`, and tied when `diff = 0`; the row built from the status/detail pair appears in the report. -/
theorem comparison_diff_report (my_score : ℤ) (comp : SiteResult) :
    (0 < my_score - comp.score → compStatusDetail my_score comp =
      ("✅ " ++ comp.label,
       "→ " ++ toString comp.score ++ " puan (" ++ toString (my_score - comp.score)
         ++ " puan gerideler)"))
    ∧ (my_score - comp.score < 0 → compStatusDetail my_score comp =
      ("⚠️  " ++ comp.label,
       "→ " ++ toString comp.score ++ " puan (" ++ toString (my_score - comp.score).natAbs
         ++ " puan ÖNDEler!)"))
    ∧ (my_score - comp.score = 0 → compStatusDetail my_score comp =
      ("🔄 " ++ comp.label, "→ " ++ toString comp.score ++ " puan (Eşit)"))
    ∧ (∀ lab : String, ("✅ " ++ lab ≠ "⚠️  " ++ lab) ∧ ("✅ " ++ lab ≠ "🔄 " ++ lab)
        ∧ ("⚠️  " ++ lab ≠ "🔄 " ++ lab))
    ∧ (∀ (date_str : String) (my_site : SiteResult) (competitors : List SiteResult),
        comp ∈ competitors →
        box (compLine my_site.score comp) ∈ reportLines date_str my_site competitors) := by
  refine ⟨fun h => ?_, fun h => ?_, fun h => ?_, fun lab => ⟨?_, ?_, ?_⟩,
    fun date_str my_site competitors hc => ?_⟩
  · unfold compStatusDetail
    rw [if_pos h]
  · unfold compStatusDetail
    rw [if_neg (by omega), if_pos h]
  · unfold compStatusDetail
    rw [if_neg (by omega), if_neg (by omega)]
  · intro heq
    have := congrArg String.length heq
    rw [String.length_append, String.length_append] at this
    have h1 : ("✅ " : String).length = 2 := by decide
    have h2 : ("⚠️  " : String).length = 4 := by decide
    omega
  · intro heq
    have hd := congrArg String.data heq
    rw [String.data_append, String.data_append] at hd
    rw [show ("✅ " : String).data = ['✅', ' '] from by decide,
        show ("🔄 " : String).data = ['🔄', ' '] from by decide] at hd
    injection hd with hd1 _
    exact absurd hd1 (by decide)
  · intro heq
    have := congrArg String.length heq
    rw [String.length_append, String.length_append] at this
    have h1 : ("⚠️  " : String).length = 4 := by decide
    have h2 : ("🔄 " : String).length = 2 := by decide
    omega
  · have hm : box (compLine my_site.score comp)
        ∈ competitors.map fun c => box (compLine my_site.score c) :=
      List.mem_map_of_mem _ hc
    unfold reportLines boxLines
    simp only [List.mem_append]
    tauto

/-- C8 witness: primary 90 against comparison 70 shows the comparison trailing by 20 points, against 95 leading by 5, and against 90 tied. -/
theorem comparison_diff_report_witness :
    compStatusDetail 90 ⟨"Rakip", "u", 70, "1.0", "0.1", []⟩
      = ("✅ Rakip", "→ 70 puan (20 puan gerideler)")
    ∧ compStatusDetail 90 ⟨"Rakip", "u", 95, "1.0", "0.1", []⟩
      = ("⚠️  Rakip", "→ 95 puan (5 puan ÖNDEler!)")
    ∧ compStatusDetail 90 ⟨"Rakip", "u", 90, "1.0", "0.1", []⟩
      = ("🔄 Rakip", "→ 90 puan (Eşit)") := by
  refine ⟨?_, ?_, ?_⟩
  · have h := (comparison_diff_report 90 ⟨"Rakip", "u", 70, "1.0", "0.1", []⟩).1 (by decide)
    rw [h]
    decide
  · have h := (comparison_diff_report 90 ⟨"Rakip", "u", 95, "1.0", "0.1", []⟩).2.1 (by decide)
    rw [h]
    decide
  · have h := (comparison_diff_report 90 ⟨"Rakip", "u", 90, "1.0", "0.1", []⟩).2.2.1 (by decide)
    rw [h]
    decide

/-- C9: the word-wrapped action block (rows prefixed by the arrow or the continuation indent, wrapped by the 54-character test of `wrapStep`) is emitted only for the 1st through 5th recommendations; one blank row follows every 3rd item except the last; an empty recommendation list prints the single congratulatory row instead of any enumeration. -/
theorem action_items_layout :
    (∀ (total i : ℕ) (ri : Recommendation), 5 < i →
      recLines total i ri = recHeaderLines i ri
        ++ (if i % 3 = 0 ∧ i < total then [box " "] else []))
    ∧ (∀ (total i : ℕ) (ri : Recommendation), i ≤ 5 →
      recLines total i ri = recHeaderLines i ri ++ recActionLines ri
        ++ (if i % 3 = 0 ∧ i < total then [box " "] else []))
    ∧ (∀ (total i : ℕ) (ri : Recommendation), i % 3 = 0 → i < total →
      ∃ pre, recLines total i ri = pre ++ [box " "])
    ∧ (∀ (total i : ℕ) (ri : Recommendation), i % 3 ≠ 0 ∨ total ≤ i →
      recLines total i ri = recHeaderLines i ri
        ++ (if i ≤ 5 then recActionLines ri else []))
    ∧ actionItemLines [] = [box "    🎉 Harika! Kritik bir iyileştirme önerisi yok."]
    ∧ (∀ recs : List Recommendation, recs ≠ [] → actionItemLines recs
        = [box ("    Toplam " ++ toString recs.length ++ " iyileştirme fırsatı bulundu:"),
           box " "]
          ++ (recs.enumFrom 1).flatMap fun p => recLines recs.length p.1 p.2)
    ∧ (∀ action : String, ∀ l ∈ wrapAction action, ∃ s, l = box s ∧ ∃ r : List Char,
        s.data = ("       → ").data ++ r ∨ s.data = ("         ").data ++ r) := by
  refine ⟨fun total i ri h => ?_, fun total i ri h => ?_, fun total i ri h1 h2 => ?_,
    fun total i ri h => ?_, ?_, fun recs h => ?_, wrapAction_box⟩
  · unfold recLines
    rw [if_neg (by omega)]
    simp
  · unfold recLines
    rw [if_pos h]
  · unfold recLines
    rw [if_pos (show i % 3 = 0 ∧ i < total from ⟨h1, h2⟩)]
    exact ⟨_, rfl⟩
  · unfold recLines
    rw [if_neg (show ¬ (i % 3 = 0 ∧ i < total) from fun hc => by
      rcases h with h | h
      · exact h hc.1
      · omega)]
    simp
  · unfold actionItemLines
    rw [if_neg (by simp)]
  · unfold actionItemLines
    rw [if_pos h]

/-- C9 witness: item 6 of 7 gets no action block but a blank row, item 2 of 7 gets its action block, item 3 of 7 ends with the blank row, and the last item gets none. -/
theorem action_items_layout_witness :
    recLines 7 6 ⟨"T", "a", "", 0, 0⟩ = recHeaderLines 6 ⟨"T", "a", "", 0, 0⟩
        ++ (if 6 % 3 = 0 ∧ 6 < 7 then [box " "] else [])
    ∧ recLines 7 2 ⟨"T", "a", "", 0, 0⟩ = recHeaderLines 2 ⟨"T", "a", "", 0, 0⟩
        ++ recActionLines ⟨"T", "a", "", 0, 0⟩ ++ (if 2 % 3 = 0 ∧ 2 < 7 then [box " "] else [])
    ∧ (∃ pre, recLines 7 3 ⟨"T", "a", "", 0, 0⟩ = pre ++ [box " "])
    ∧ recLines 6 6 ⟨"T", "a", "", 0, 0⟩ = recHeaderLines 6 ⟨"T", "a", "", 0, 0⟩
        ++ (if 6 ≤ 5 then recActionLines ⟨"T", "a", "", 0, 0⟩ else []) :=
  ⟨action_items_layout.1 7 6 _ (by omega),
   action_items_layout.2.1 7 2 _ (by omega),
   action_items_layout.2.2.1 7 3 _ rfl (by omega),
   action_items_layout.2.2.2.1 6 6 _ (Or.inr (le_refl 6))⟩
